import Mathlib

/-!
Verification model of `src/credit_risk_model.py` (class `CreditRiskModel`).

Modelling conventions:
* Python floats are modelled exactly as rationals (`ℚ`); `np.clip x lo hi`
  is `min hi (max lo x)`.
* A pandas `DataFrame` is a `Table`: an explicit column-name list plus a
  list of rows, each row an association list from column name to `Val`.
  Column assignment `df[c] = v` is per-row `setA` (the columns assigned by
  the code always have the same length as the frame, so column-wise and
  row-wise assignment coincide).
* `np.random.Generator` is an abstract deterministic generator: a state
  type `σ` with one pure state-passing draw function per method the code
  calls (`choice`, `integers`, `uniform`, `normal`, `binomial`), packaged
  in `RNGImpl` together with the length laws numpy guarantees (each draw
  returns exactly `size` values; `binomial` returns one value per
  probability, each at most `n`).  All theorems hold for every such
  implementation.
* The model instance is `ModelState`: the generator state plus the mutable
  `pd_scalers` dict; each method threads it explicitly.
* `dt.date` values are days (`Int`); `dt.date.today()` is an explicit
  `today` argument of the operation that would call it.
* Raising `ValueError` for missing columns is modelled as `Except.error`
  carrying the sorted list of missing names (the data the message holds).
-/

namespace CreditRisk

/-- Cell values of a table column: strings, rationals (numeric model of
Python floats), booleans and integer-coded dates. -/
inductive Val where
  | s : String → Val
  | q : ℚ → Val
  | b : Bool → Val
  | i : Int → Val
  deriving DecidableEq, Repr

/-- A table row: association list from column name to cell value. -/
abbrev Row := List (String × Val)

/-- Raw cell access with a default (the code never reads a column it has
not checked or just written). -/
def getV (r : Row) (c : String) : Val := (r.lookup c).getD (Val.q 0)

/-- Numeric view of a cell; booleans count as 0/1, matching
`pandas` arithmetic on a bool column (`mean(default_flag)`). -/
def getQ (r : Row) (c : String) : ℚ :=
  match getV r c with
  | .q x => x
  | .b true => 1
  | .b false => 0
  | _ => 0

/-- String view of a cell. -/
def getS (r : Row) (c : String) : String :=
  match getV r c with
  | .s x => x
  | _ => ""

/-- Dict/DataFrame assignment `m[k] = v`: overwrite an existing key in
place, otherwise append the new key at the end (Python dict semantics). -/
def setA {β : Type} (m : List (String × β)) (k : String) (v : β) :
    List (String × β) :=
  if (m.lookup k).isSome then
    m.map (fun p => if p.1 = k then (k, v) else p)
  else m ++ [(k, v)]

/-- A pandas DataFrame: named columns plus rows. -/
structure Table where
  cols : List String
  rows : List Row
  deriving DecidableEq, Repr

/-- Adding a column to a frame's column list (`df[c] = v`): appended at the
end when new, unchanged when already present. -/
def addCol (cs : List String) (c : String) : List String :=
  if c ∈ cs then cs else cs ++ [c]

/-- `np.clip x lo hi = min hi (max lo x)`. -/
def clip (x lo hi : ℚ) : ℚ := min hi (max lo x)

/-- `sorted(set(req) - set(frame.columns))`: the required names absent from
the table, in ascending order. -/
def missingCols (t : Table) (req : List String) : List String :=
  List.insertionSort (fun a b => a ≤ b) (req.filter (fun c => c ∉ t.cols))

/-- Construction-time configuration of `CreditRiskModel` (the dataclass
fields), with the dataclass defaults. -/
structure ModelConfig where
  seed : Int := 42
  segments : List String := ["Prime", "Near-Prime", "Subprime"]
  base_pd : List (String × ℚ) :=
    [("Prime", 1/200), ("Near-Prime", 3/200), ("Subprime", 9/200)]
  pd_floor : ℚ := 1/2000
  pd_cap : ℚ := 2/5
  lgd_range : ℚ × ℚ := (1/4, 13/20)
  ead_range : Int × Int := (1000, 25000)
  coupon_range : ℚ × ℚ := (1/40, 7/40)
  term_range_months : Int × Int := (12, 72)

/-- Abstract deterministic pseudo-random generator: pure state-passing
draw functions for exactly the `np.random.Generator` methods the code
calls, with the size laws numpy guarantees. -/
structure RNGImpl (σ : Type) where
  init : Int → σ
  choice : σ → List String → List ℚ → Nat → List String × σ
  integers : σ → Int → Int → Nat → List Int × σ
  uniform : σ → ℚ → ℚ → Nat → List ℚ × σ
  normal : σ → ℚ → ℚ → Nat → List ℚ × σ
  binomial : σ → Nat → List ℚ → List Nat × σ
  choice_len : ∀ s items p n, (choice s items p n).1.length = n
  integers_len : ∀ s lo hi n, (integers s lo hi n).1.length = n
  uniform_len : ∀ s lo hi n, (uniform s lo hi n).1.length = n
  normal_len : ∀ s loc sc n, (normal s loc sc n).1.length = n
  binomial_len : ∀ s n p, (binomial s n p).1.length = p.length
  binomial_le : ∀ s n p, ∀ x ∈ (binomial s n p).1, x ≤ n

/-- The mutable state of one model instance: the generator plus the
`pd_scalers` dict. -/
structure ModelState (σ : Type) where
  rng : σ
  pd_scalers : List (String × ℚ)

/-- `__post_init__`: seed the generator and set every configured segment's
scaler to 1.0. -/
def postInit {σ : Type} (impl : RNGImpl σ) (cfg : ModelConfig) :
    ModelState σ :=
  { rng := impl.init cfg.seed
    pd_scalers := cfg.segments.map (fun s => (s, 1)) }

/-- `_segment_probs`: fixed weights [0.45, 0.35, 0.20] for exactly three
segments, uniform otherwise. -/
def segmentProbs (cfg : ModelConfig) : List ℚ :=
  if cfg.segments.length ≠ 3 then
    cfg.segments.map (fun _ => 1 / (cfg.segments.length : ℚ))
  else [9/20, 7/20, 1/5]

/-- Account id `ACC-` followed by the zero-padded six-digit index. -/
def accId (i : Nat) : String :=
  let s := toString i
  "ACC-" ++ String.mk (List.replicate (6 - s.length) '0') ++ s

/-- Column order of a baseline snapshot. -/
def baselineCols : List String :=
  ["account_id", "as_of_date", "segment", "ead", "lgd", "coupon",
   "term_months", "pd_estimate"]

/-- `generate_baseline_data`, acting on the raw generator state (the method
touches no other instance state).  Draw order follows the source: segment
choice, EAD integers, LGD uniforms, coupon uniforms, term integers, then
the normal PD noise (mean 1.0, sd 0.15); `pd_estimate` is the segment base
PD times its noise, clipped into [pd_floor, pd_cap]. -/
def generate_baseline_core {σ : Type} (impl : RNGImpl σ) (cfg : ModelConfig)
    (s : σ) (num_accounts : Nat) (as_of_date : Int) : Table × σ :=
  let dSeg := impl.choice s cfg.segments (segmentProbs cfg) num_accounts
  let dEad := impl.integers dSeg.2 cfg.ead_range.1 (cfg.ead_range.2 + 1) num_accounts
  let dLgd := impl.uniform dEad.2 cfg.lgd_range.1 cfg.lgd_range.2 num_accounts
  let dCpn := impl.uniform dLgd.2 cfg.coupon_range.1 cfg.coupon_range.2 num_accounts
  let dTrm := impl.integers dCpn.2 cfg.term_range_months.1
    (cfg.term_range_months.2 + 1) num_accounts
  let dNse := impl.normal dTrm.2 1 (3/20) num_accounts
  let rows := (List.range num_accounts).map (fun i =>
    let seg := dSeg.1.getD i ""
    let pdE := clip (((cfg.base_pd.lookup seg).getD 0) * dNse.1.getD i 0)
      cfg.pd_floor cfg.pd_cap
    [("account_id", Val.s (accId i)),
     ("as_of_date", Val.i as_of_date),
     ("segment", Val.s seg),
     ("ead", Val.q ((dEad.1.getD i 0 : Int) : ℚ)),
     ("lgd", Val.q (dLgd.1.getD i 0)),
     ("coupon", Val.q (dCpn.1.getD i 0)),
     ("term_months", Val.q ((dTrm.1.getD i 0 : Int) : ℚ)),
     ("pd_estimate", Val.q pdE)])
  ({ cols := baselineCols, rows := rows }, dNse.2)

/-- `generate_baseline_data` as the instance method: only the generator
state changes. -/
def generate_baseline_data {σ : Type} (impl : RNGImpl σ) (cfg : ModelConfig)
    (st : ModelState σ) (num_accounts : Nat) (as_of_date : Int) :
    Table × ModelState σ :=
  let r := generate_baseline_core impl cfg st.rng num_accounts as_of_date
  (r.1, { st with rng := r.2 })

/-- Column order of a historical panel row. -/
def histCols : List String :=
  baselineCols ++ ["default_flag", "realized_lgd", "loss", "period"]

/-- One period's `snap.assign(...)`: pair each snapshot row with its drawn
default flag and realized LGD, compute `loss` from the raw 0/1 flag, store
the flag as a boolean (`astype(bool)`), and tag the period. -/
def histAssign (rows : List Row) (flags : List Nat) (rlgd : List ℚ)
    (period : Nat) : List Row :=
  (rows.zip (flags.zip rlgd)).map (fun p =>
    let r := p.1
    let f := p.2.1
    let l := p.2.2
    let loss := (f : ℚ) * getQ r "ead" * l
    setA (setA (setA (setA r "default_flag" (Val.b (f != 0)))
      "realized_lgd" (Val.q l)) "loss" (Val.q loss)) "period"
      (Val.q (period : ℚ)))

/-- The `for i in range(periods)` loop of `generate_historical_data`:
`fuel` periods remain and `i` is the current index.  Per period: a baseline
snapshot at `start_date + i*period_length_days`, a Bernoulli flag per
account with probability `pd_estimate`, an independent realized LGD draw,
then the assigned block, blocks concatenated in period order. -/
def histAux {σ : Type} (impl : RNGImpl σ) (cfg : ModelConfig)
    (start_date : Int) (period_length_days : Int)
    (accounts_per_period : Nat) : Nat → Nat → σ → List Row × σ
  | 0, _, s => ([], s)
  | fuel + 1, i, s =>
    let snap := generate_baseline_core impl cfg s accounts_per_period
      (start_date + (i : Int) * period_length_days)
    let dFlg := impl.binomial snap.2 1
      (snap.1.rows.map (fun r => getQ r "pd_estimate"))
    let dRlg := impl.uniform dFlg.2 cfg.lgd_range.1 cfg.lgd_range.2
      accounts_per_period
    let rest := histAux impl cfg start_date period_length_days
      accounts_per_period fuel (i + 1) dRlg.2
    (histAssign snap.1.rows dFlg.1 dRlg.1 (i + 1) ++ rest.1, rest.2)

/-- `generate_historical_data`: concatenation of the per-period blocks
(`ignore_index=True` renumbers the index, which rows do not carry here). -/
def generate_historical_data {σ : Type} (impl : RNGImpl σ)
    (cfg : ModelConfig) (st : ModelState σ) (periods : Nat)
    (accounts_per_period : Nat) (start_date : Int)
    (period_length_days : Int) : Table × ModelState σ :=
  let r := histAux impl cfg start_date period_length_days accounts_per_period
    periods 0 st.rng
  ({ cols := histCols, rows := r.1 }, { st with rng := r.2 })

/-- Columns `calibrate_pd` requires of its input. -/
def calibrateRequired : List String := ["segment", "pd_estimate", "default_flag"]

/-- Columns `score_portfolio` requires of its input. -/
def scoreRequired : List String :=
  ["account_id", "segment", "ead", "lgd", "pd_estimate"]

/-- Arithmetic mean of a list of rationals (pandas `Series.mean`; only ever
applied to nonempty groups). -/
def mean (xs : List ℚ) : ℚ := xs.sum / (xs.length : ℚ)

/-- The group keys of `history.groupby("segment")`: the distinct segment
values, in ascending order (pandas sorts group keys). -/
def groupKeys (rows : List Row) : List String :=
  List.insertionSort (fun a b => a ≤ b)
    ((rows.map (fun r => getS r "segment")).dedup)

/-- Per-segment calibration numbers of `calibrate_pd`. -/
structure SegCalib where
  observed_rate : ℚ
  expected_rate : ℚ
  scaler : ℚ

/-- One `groupby` iteration of `calibrate_pd`: observed and expected rates
are the means of `default_flag` and `pd_estimate` over the segment's rows;
the scaler is their ratio clipped into [0.25, 4.0], or 1.0 when the
expected rate is exactly 0. -/
def segScaler (rows : List Row) (seg : String) : SegCalib :=
  let frame := rows.filter (fun r => getS r "segment" = seg)
  let observed := mean (frame.map (fun r => getQ r "default_flag"))
  let expected := mean (frame.map (fun r => getQ r "pd_estimate"))
  { observed_rate := observed
    expected_rate := expected
    scaler := if expected = 0 then 1 else clip (observed / expected) (1/4) 4 }

/-- `calibrate_pd`: check the required columns, then per observed segment
record one summary row and overwrite that segment's scaler in
`pd_scalers`.  A missing column raises before any state is touched. -/
def calibrate_pd {σ : Type} (st : ModelState σ) (history : Table) :
    Except (List String) (Table × ModelState σ) :=
  let miss := missingCols history calibrateRequired
  if miss = [] then
    let segs := groupKeys history.rows
    let summary := segs.map (fun seg =>
      let c := segScaler history.rows seg
      [("segment", Val.s seg),
       ("expected_pd", Val.q c.expected_rate),
       ("observed_default_rate", Val.q c.observed_rate),
       ("pd_scaler", Val.q c.scaler)])
    let scalers := segs.foldl
      (fun m seg => setA m seg (segScaler history.rows seg).scaler)
      st.pd_scalers
    Except.ok
      ({ cols := ["segment", "expected_pd", "observed_default_rate", "pd_scaler"]
         rows := summary },
       { st with pd_scalers := scalers })
  else Except.error miss

/-- Per-row work of `score_portfolio`: look up the segment's scaler
(default 1.0), clip the scaled PD into [pd_floor, pd_cap], then compute
expected loss from the updated frame's columns. -/
def scoreRow (cfg : ModelConfig) (scalers : List (String × ℚ)) (r : Row) :
    Row :=
  let scaler := (scalers.lookup (getS r "segment")).getD 1
  let pdCal := clip (getQ r "pd_estimate" * scaler) cfg.pd_floor cfg.pd_cap
  let r1 := setA r "pd_calibrated" (Val.q pdCal)
  setA r1 "expected_loss"
    (Val.q (getQ r1 "ead" * getQ r1 "lgd" * getQ r1 "pd_calibrated"))

/-- `score_portfolio`: check the required columns, then return a copy of
the input with `pd_calibrated` and `expected_loss` appended.  The instance
state is read (scalers) but never written. -/
def score_portfolio {σ : Type} (cfg : ModelConfig) (st : ModelState σ)
    (portfolio : Table) : Except (List String) Table :=
  let miss := missingCols portfolio scoreRequired
  if miss = [] then
    Except.ok
      { cols := addCol (addCol portfolio.cols "pd_calibrated") "expected_loss"
        rows := portfolio.rows.map (scoreRow cfg st.pd_scalers) }
  else Except.error miss

/-- Per-row work of `run_stress_scenario` on an already scored row, with
`shock` the resolved macro shock.  The stressed PD keeps the source's
exact form `pd_calibrated * pd_multiplier + shock * pd_calibrated`. -/
def stressRow (cfg : ModelConfig) (pd_multiplier lgd_shift shock : ℚ)
    (r : Row) : Row :=
  let pdS := clip (getQ r "pd_calibrated" * pd_multiplier
    + shock * getQ r "pd_calibrated") cfg.pd_floor cfg.pd_cap
  let lgdS := clip (getQ r "lgd" + lgd_shift) 0 1
  let r1 := setA (setA r "pd_stressed" (Val.q pdS)) "lgd_stressed" (Val.q lgdS)
  setA r1 "expected_loss_stressed"
    (Val.q (getQ r1 "ead" * getQ r1 "lgd_stressed" * getQ r1 "pd_stressed"))

/-- `run_stress_scenario`: score the input (propagating a missing-column
error), resolve `shock = macro_shock if macro_shock is not None else 0.0`,
and append the three stressed columns.  Source defaults:
`pd_multiplier=1.35`, `lgd_shift=0.05`. -/
def run_stress_scenario {σ : Type} (cfg : ModelConfig) (st : ModelState σ)
    (portfolio : Table) (pd_multiplier lgd_shift : ℚ)
    (macro_shock : Option ℚ) : Except (List String) Table :=
  match score_portfolio cfg st portfolio with
  | .error e => .error e
  | .ok scored =>
    let shock := macro_shock.getD 0
    .ok { cols := addCol (addCol (addCol scored.cols "pd_stressed")
            "lgd_stressed") "expected_loss_stressed"
          rows := scored.rows.map
            (stressRow cfg pd_multiplier lgd_shift shock) }

/-- One public method call on a model instance, with its arguments.
Optional dates carry the `dt.date.today()` the call would read as an
explicit `today` argument. -/
inductive Op where
  | genBaseline (num_accounts : Nat) (as_of_date : Option Int) (today : Int)
  | genHistorical (periods accounts_per_period : Nat)
      (start_date : Option Int) (period_length_days : Int) (today : Int)
  | calibrate (history : Table)
  | score (portfolio : Table)
  | stress (portfolio : Table) (pd_multiplier lgd_shift : ℚ)
      (macro_shock : Option ℚ)

/-- Run one method call: its result (a table, or the missing-column error)
and the instance state afterwards.  Date defaults follow the source:
`as_of_date or today`, `start_date or today - periods*period_length_days`.
A raised error leaves the state as it was. -/
def runOp {σ : Type} (impl : RNGImpl σ) (cfg : ModelConfig)
    (st : ModelState σ) : Op → Except (List String) Table × ModelState σ
  | .genBaseline n asOf today =>
    let r := generate_baseline_data impl cfg st n (asOf.getD today)
    (.ok r.1, r.2)
  | .genHistorical p npp start plen today =>
    let r := generate_historical_data impl cfg st p npp
      (start.getD (today - (p : Int) * plen)) plen
    (.ok r.1, r.2)
  | .calibrate h =>
    match calibrate_pd st h with
    | .ok r => (.ok r.1, r.2)
    | .error e => (.error e, st)
  | .score pf => (score_portfolio cfg st pf, st)
  | .stress pf m sh shock => (run_stress_scenario cfg st pf m sh shock, st)

/-- Run a call sequence, collecting every call's result. -/
def run {σ : Type} (impl : RNGImpl σ) (cfg : ModelConfig) :
    ModelState σ → List Op → List (Except (List String) Table) × ModelState σ
  | st, [] => ([], st)
  | st, op :: ops =>
    let r := runOp impl cfg st op
    let rest := run impl cfg r.2 ops
    (r.1 :: rest.1, rest.2)

/-- Calls that neither draw from the generator nor write the scalers. -/
def passiveOp : Op → Bool
  | .score _ => true
  | .stress _ _ _ _ => true
  | _ => false

/-- A concrete generator for evaluating the model at concrete inputs:
every draw returns `size` copies of its first distribution parameter,
`binomial` returns all zeros, and the state counts draws made. -/
def cntImpl : RNGImpl Nat where
  init := fun _ => 0
  choice := fun s items _ n => (List.replicate n (items.getD 0 ""), s + 1)
  integers := fun s lo _ n => (List.replicate n lo, s + 1)
  uniform := fun s lo _ n => (List.replicate n lo, s + 1)
  normal := fun s loc _ n => (List.replicate n loc, s + 1)
  binomial := fun s _ p => (p.map (fun _ => 0), s + 1)
  choice_len := fun _ _ _ _ => List.length_replicate _ _
  integers_len := fun _ _ _ _ => List.length_replicate _ _
  uniform_len := fun _ _ _ _ => List.length_replicate _ _
  normal_len := fun _ _ _ _ => List.length_replicate _ _
  binomial_len := fun _ _ _ => List.length_map _ _
  binomial_le := by intro s n p x hx; simp at hx; omega

/-- The dataclass defaults. -/
def defaultConfig : ModelConfig := {}

/-- A fresh default instance over the counting generator. -/
def st0 : ModelState Nat := postInit cntImpl defaultConfig

/-- A one-row portfolio whose `lgd` value 2 lies outside [0, 1]; it has
every column `score_portfolio` and `calibrate_pd` require. -/
def rowHighLgd : Row :=
  [("account_id", Val.s "A1"), ("segment", Val.s "Prime"),
   ("ead", Val.q 1), ("lgd", Val.q 2), ("pd_estimate", Val.q (1/10)),
   ("default_flag", Val.b false)]

def tHighLgd : Table :=
  { cols := ["account_id", "segment", "ead", "lgd", "pd_estimate",
             "default_flag"]
    rows := [rowHighLgd] }

/-- A one-row portfolio whose `pd_estimate` value 7 lies far above the
default `pd_cap` of 0.40. -/
def rowHighPd : Row :=
  [("account_id", Val.s "A1"), ("segment", Val.s "Prime"),
   ("ead", Val.q 1), ("lgd", Val.q (1/2)), ("pd_estimate", Val.q 7)]

def tHighPd : Table := { cols := scoreRequired, rows := [rowHighPd] }

/-- A table lacking the `default_flag` and `lgd` columns. -/
def tMissing : Table :=
  { cols := ["account_id", "segment", "ead", "pd_estimate"]
    rows := [] }

/-- The error payload of a call result, when it raised. -/
def errOf {α : Type} : Except (List String) α → Option (List String)
  | .error e => some e
  | .ok _ => none

/-- The named numeric cell of the result's first row, when the call
succeeded (used to state concrete evaluations). -/
def firstQ (e : Except (List String) Table) (c : String) : Option ℚ :=
  match e with
  | .error _ => none
  | .ok t => some (getQ (t.rows.getD 0 []) c)

/-! ### Facts about `setA` lookups -/

theorem lookup_map_replace_self {β : Type} (m : List (String × β))
    (k : String) (v : β) :
    ((m.map (fun p => if p.1 = k then (k, v) else p)).lookup k)
      = (m.lookup k).map (fun _ => v) := by
  induction m with
  | nil => simp
  | cons a t ih =>
    obtain ⟨a1, a2⟩ := a
    by_cases h : a1 = k
    · simp [List.lookup_cons, h, ih]
    · have hk : (k == a1) = false := by
        simp only [beq_eq_false_iff_ne]
        exact fun hkk => h hkk.symm
      simp [List.lookup_cons, h, hk, ih]

theorem lookup_map_replace_ne {β : Type} (m : List (String × β))
    (k k2 : String) (v : β) (h : k2 ≠ k) :
    ((m.map (fun p => if p.1 = k then (k, v) else p)).lookup k2)
      = m.lookup k2 := by
  induction m with
  | nil => simp
  | cons a t ih =>
    obtain ⟨a1, a2⟩ := a
    by_cases ha : a1 = k
    · have hk2 : (k2 == a1) = false := by
        simp only [beq_eq_false_iff_ne]
        exact fun hkk => h (hkk.trans ha)
      have hk2k : (k2 == k) = false := by
        simp only [beq_eq_false_iff_ne]; exact h
      simp [List.lookup_cons, ha, hk2, hk2k, ih]
    · cases hk2 : (k2 == a1) with
      | true => simp [List.lookup_cons, ha, hk2]
      | false => simp [List.lookup_cons, ha, hk2, ih]

theorem lookup_append_single {β : Type} (m : List (String × β))
    (k k2 : String) (v : β) :
    ((m ++ [(k, v)]).lookup k2)
      = ((m.lookup k2).or (if k2 == k then some v else none)) := by
  induction m with
  | nil => cases hk : (k2 == k) <;> simp [List.lookup_cons, hk]
  | cons a t ih =>
    obtain ⟨a1, a2⟩ := a
    cases hk2 : (k2 == a1) with
    | true => simp [List.lookup_cons, hk2]
    | false => simp [List.lookup_cons, hk2, ih]

theorem lookup_setA_self {β : Type} (m : List (String × β)) (k : String)
    (v : β) : ((setA m k v).lookup k) = some v := by
  unfold setA
  by_cases hs : (m.lookup k).isSome
  · obtain ⟨w, hw⟩ := Option.isSome_iff_exists.mp hs
    simp [hs, lookup_map_replace_self, hw]
  · have hn : m.lookup k = none := Option.not_isSome_iff_eq_none.mp hs
    simp [hs, lookup_append_single, hn]

theorem lookup_setA_ne {β : Type} (m : List (String × β)) (k k2 : String)
    (v : β) (h : k2 ≠ k) : ((setA m k v).lookup k2) = m.lookup k2 := by
  unfold setA
  have hk2k : (k2 == k) = false := by
    simp only [beq_eq_false_iff_ne]; exact h
  by_cases hs : (m.lookup k).isSome
  · simp [hs, lookup_map_replace_ne _ _ _ _ h]
  · simp [hs, lookup_append_single, hk2k]

theorem getV_setA_self (r : Row) (c : String) (v : Val) :
    getV (setA r c v) c = v := by
  simp [getV, lookup_setA_self]

theorem getV_setA_ne (r : Row) (c c2 : String) (v : Val) (h : c2 ≠ c) :
    getV (setA r c v) c2 = getV r c2 := by
  simp [getV, lookup_setA_ne _ _ _ _ h]

theorem getQ_setA_self (r : Row) (c : String) (x : ℚ) :
    getQ (setA r c (Val.q x)) c = x := by
  simp [getQ, getV_setA_self]

theorem getQ_setA_ne (r : Row) (c c2 : String) (v : Val) (h : c2 ≠ c) :
    getQ (setA r c v) c2 = getQ r c2 := by
  simp [getQ, getV_setA_ne _ _ _ _ h]

/-! ### Facts about `clip` -/

theorem clip_le_hi (x lo hi : ℚ) : clip x lo hi ≤ hi := min_le_left _ _

theorem lo_le_clip (x lo hi : ℚ) (h : lo ≤ hi) : lo ≤ clip x lo hi :=
  le_min h (le_max_left _ _)

theorem clip_of_mem (x lo hi : ℚ) (h1 : lo ≤ x) (h2 : x ≤ hi) :
    clip x lo hi = x := by
  unfold clip
  rw [max_eq_right h1, min_eq_right h2]

/-! ### Facts about `missingCols` and `groupKeys` -/

theorem missingCols_eq_nil_iff (t : Table) (req : List String) :
    missingCols t req = [] ↔ ∀ c ∈ req, c ∈ t.cols := by
  unfold missingCols
  have hp := List.perm_insertionSort (fun a b : String => a ≤ b)
    (req.filter (fun c => c ∉ t.cols))
  constructor
  · intro h
    rw [h] at hp
    have h0 := hp.symm.eq_nil
    intro c hc
    by_contra hnc
    have : c ∈ req.filter (fun c => c ∉ t.cols) := by
      simp [List.mem_filter, hc, hnc]
    rw [h0] at this
    exact absurd this (List.not_mem_nil c)
  · intro h
    have h0 : req.filter (fun c => c ∉ t.cols) = [] := by
      rw [List.filter_eq_nil_iff]
      intro c hc
      simp [h c hc]
    rw [h0]
    rfl

theorem mem_missingCols (t : Table) (req : List String) (c : String) :
    c ∈ missingCols t req ↔ c ∈ req ∧ c ∉ t.cols := by
  unfold missingCols
  rw [(List.perm_insertionSort (fun a b : String => a ≤ b) _).mem_iff]
  simp [List.mem_filter]

theorem missingCols_sorted (t : Table) (req : List String) :
    List.Sorted (fun a b : String => a ≤ b) (missingCols t req) :=
  List.sorted_insertionSort _ _

theorem mem_groupKeys (rows : List Row) (seg : String) :
    seg ∈ groupKeys rows ↔ ∃ r ∈ rows, getS r "segment" = seg := by
  unfold groupKeys
  rw [(List.perm_insertionSort (fun a b : String => a ≤ b) _).mem_iff]
  simp [List.mem_dedup, List.mem_map, eq_comm]

theorem nodup_groupKeys (rows : List Row) : (groupKeys rows).Nodup := by
  unfold groupKeys
  exact ((List.perm_insertionSort (fun a b : String => a ≤ b) _).nodup_iff).mpr
    (List.nodup_dedup _)

/-! ### Facts about the scaler fold of `calibrate_pd` -/

theorem lookup_foldl_setA_not_mem (f : String → ℚ) (segs : List String)
    (m : List (String × ℚ)) (k : String) (hk : k ∉ segs) :
    ((segs.foldl (fun acc seg => setA acc seg (f seg)) m).lookup k)
      = m.lookup k := by
  induction segs generalizing m with
  | nil => rfl
  | cons a t ih =>
    rw [List.foldl_cons]
    have hka : k ≠ a := fun h => hk (h ▸ List.mem_cons_self a t)
    rw [ih (setA m a (f a)) (fun h => hk (List.mem_cons_of_mem a h)),
      lookup_setA_ne _ _ _ _ hka]

theorem lookup_foldl_setA_mem (f : String → ℚ) (segs : List String)
    (m : List (String × ℚ)) (k : String) (hnd : segs.Nodup)
    (hk : k ∈ segs) :
    ((segs.foldl (fun acc seg => setA acc seg (f seg)) m).lookup k)
      = some (f k) := by
  induction segs generalizing m with
  | nil => exact absurd hk (List.not_mem_nil k)
  | cons a t ih =>
    rw [List.foldl_cons]
    rcases List.mem_cons.mp hk with h | h
    · subst h
      have hnt : k ∉ t := (List.nodup_cons.mp hnd).1
      rw [lookup_foldl_setA_not_mem _ _ _ _ hnt, lookup_setA_self]
    · exact ih (setA m a (f a)) (List.nodup_cons.mp hnd).2 h

/-! ### Facts about `run` -/

theorem run_append {σ : Type} (impl : RNGImpl σ) (cfg : ModelConfig)
    (st : ModelState σ) (os ys : List Op) :
    run impl cfg st (os ++ ys)
      = ((run impl cfg st os).1
          ++ (run impl cfg (run impl cfg st os).2 ys).1,
         (run impl cfg (run impl cfg st os).2 ys).2) := by
  induction os generalizing st with
  | nil => simp [run]
  | cons o t ih => simp [run, ih]

theorem runOp_passive_state {σ : Type} (impl : RNGImpl σ)
    (cfg : ModelConfig) (st : ModelState σ) (o : Op)
    (h : passiveOp o = true) : (runOp impl cfg st o).2 = st := by
  cases o <;> simp [passiveOp] at h <;> rfl

theorem run_passive_state {σ : Type} (impl : RNGImpl σ) (cfg : ModelConfig)
    (st : ModelState σ) (os : List Op)
    (h : ∀ o ∈ os, passiveOp o = true) : (run impl cfg st os).2 = st := by
  induction os generalizing st with
  | nil => rfl
  | cons o t ih =>
    show (run impl cfg (runOp impl cfg st o).2 t).2 = st
    rw [runOp_passive_state impl cfg st o (h o (List.mem_cons_self o t))]
    exact ih st (fun o2 h2 => h o2 (List.mem_cons_of_mem o h2))

/-! ### Row-level facts about `score_portfolio` and `run_stress_scenario` -/

theorem scoreRow_pd_calibrated (cfg : ModelConfig)
    (scalers : List (String × ℚ)) (r : Row) :
    getQ (scoreRow cfg scalers r) "pd_calibrated"
      = clip (getQ r "pd_estimate"
            * ((scalers.lookup (getS r "segment")).getD 1))
          cfg.pd_floor cfg.pd_cap := by
  unfold scoreRow
  rw [getQ_setA_ne _ _ _ _ (by decide), getQ_setA_self]

theorem scoreRow_expected_loss (cfg : ModelConfig)
    (scalers : List (String × ℚ)) (r : Row) :
    getQ (scoreRow cfg scalers r) "expected_loss"
      = getQ r "ead" * getQ r "lgd"
        * clip (getQ r "pd_estimate"
              * ((scalers.lookup (getS r "segment")).getD 1))
            cfg.pd_floor cfg.pd_cap := by
  unfold scoreRow
  rw [getQ_setA_self, getQ_setA_ne _ _ _ _ (by decide),
    getQ_setA_ne _ _ _ _ (by decide), getQ_setA_self]

theorem scoreRow_getQ_other (cfg : ModelConfig)
    (scalers : List (String × ℚ)) (r : Row) (c : String)
    (h1 : c ≠ "pd_calibrated") (h2 : c ≠ "expected_loss") :
    getQ (scoreRow cfg scalers r) c = getQ r c := by
  unfold scoreRow
  rw [getQ_setA_ne _ _ _ _ h2, getQ_setA_ne _ _ _ _ h1]

theorem stressRow_pd_stressed (cfg : ModelConfig)
    (pd_multiplier lgd_shift shock : ℚ) (r : Row) :
    getQ (stressRow cfg pd_multiplier lgd_shift shock r) "pd_stressed"
      = clip (getQ r "pd_calibrated" * pd_multiplier
            + shock * getQ r "pd_calibrated") cfg.pd_floor cfg.pd_cap := by
  unfold stressRow
  rw [getQ_setA_ne _ _ _ _ (by decide), getQ_setA_ne _ _ _ _ (by decide),
    getQ_setA_self]

theorem stressRow_lgd_stressed (cfg : ModelConfig)
    (pd_multiplier lgd_shift shock : ℚ) (r : Row) :
    getQ (stressRow cfg pd_multiplier lgd_shift shock r) "lgd_stressed"
      = clip (getQ r "lgd" + lgd_shift) 0 1 := by
  unfold stressRow
  rw [getQ_setA_ne _ _ _ _ (by decide), getQ_setA_self]

theorem stressRow_expected_loss_stressed (cfg : ModelConfig)
    (pd_multiplier lgd_shift shock : ℚ) (r : Row) :
    getQ (stressRow cfg pd_multiplier lgd_shift shock r)
        "expected_loss_stressed"
      = getQ r "ead" * clip (getQ r "lgd" + lgd_shift) 0 1
        * clip (getQ r "pd_calibrated" * pd_multiplier
              + shock * getQ r "pd_calibrated") cfg.pd_floor cfg.pd_cap := by
  unfold stressRow
  rw [getQ_setA_self, getQ_setA_ne _ _ _ _ (by decide),
    getQ_setA_ne _ _ _ _ (by decide), getQ_setA_self,
    getQ_setA_ne _ _ _ _ (by decide), getQ_setA_self]

theorem stressRow_getQ_other (cfg : ModelConfig)
    (pd_multiplier lgd_shift shock : ℚ) (r : Row) (c : String)
    (h1 : c ≠ "pd_stressed") (h2 : c ≠ "lgd_stressed")
    (h3 : c ≠ "expected_loss_stressed") :
    getQ (stressRow cfg pd_multiplier lgd_shift shock r) c = getQ r c := by
  unfold stressRow
  rw [getQ_setA_ne _ _ _ _ h3, getQ_setA_ne _ _ _ _ h2,
    getQ_setA_ne _ _ _ _ h1]

/-! ### Facts about `generate_baseline_core` -/

theorem generate_baseline_core_length {σ : Type} (impl : RNGImpl σ)
    (cfg : ModelConfig) (s : σ) (n : Nat) (d : Int) :
    (generate_baseline_core impl cfg s n d).1.rows.length = n := by
  simp [generate_baseline_core]

theorem getQ_cons_self (r : Row) (c : String) (x : ℚ) :
    getQ ((c, Val.q x) :: r) c = x := by
  simp [getQ, getV, List.lookup_cons]

theorem getQ_cons_ne (r : Row) (c c2 : String) (v : Val) (h : c2 ≠ c) :
    getQ ((c, v) :: r) c2 = getQ r c2 := by
  have hk : (c2 == c) = false := by
    simp only [beq_eq_false_iff_ne]; exact h
  simp [getQ, getV, List.lookup_cons, hk]

theorem generate_baseline_core_pd {σ : Type} (impl : RNGImpl σ)
    (cfg : ModelConfig) (s : σ) (n : Nat) (d : Int)
    (hfc : cfg.pd_floor ≤ cfg.pd_cap) :
    ∀ r ∈ (generate_baseline_core impl cfg s n d).1.rows,
      cfg.pd_floor ≤ getQ r "pd_estimate"
        ∧ getQ r "pd_estimate" ≤ cfg.pd_cap := by
  intro r hr
  simp only [generate_baseline_core, List.mem_map, List.mem_range] at hr
  obtain ⟨i, hi, rfl⟩ := hr
  rw [getQ_cons_ne _ _ _ _ (by decide), getQ_cons_ne _ _ _ _ (by decide),
    getQ_cons_ne _ _ _ _ (by decide), getQ_cons_ne _ _ _ _ (by decide),
    getQ_cons_ne _ _ _ _ (by decide), getQ_cons_ne _ _ _ _ (by decide),
    getQ_cons_ne _ _ _ _ (by decide), getQ_cons_self]
  exact ⟨lo_le_clip _ _ _ hfc, clip_le_hi _ _ _⟩

/-! ### Facts about `generate_historical_data` -/

theorem getD_append_left {α : Type} (l1 l2 : List α) (j : Nat) (d : α)
    (h : j < l1.length) : (l1 ++ l2).getD j d = l1.getD j d := by
  induction l1 generalizing j with
  | nil => simp at h
  | cons a t ih =>
    cases j with
    | zero => rfl
    | succ j2 =>
      simp only [List.cons_append, List.getD_cons_succ]
      exact ih j2 (by simpa using h)

theorem getD_append_right {α : Type} (l1 l2 : List α) (m : Nat) (d : α) :
    (l1 ++ l2).getD (l1.length + m) d = l2.getD m d := by
  induction l1 with
  | nil => simp
  | cons a t ih =>
    simp only [List.cons_append, List.length_cons]
    have h : t.length + 1 + m = (t.length + m) + 1 := by omega
    rw [h, List.getD_cons_succ, ih]

theorem histAssign_length (rows : List Row) (flags : List Nat)
    (rlgd : List ℚ) (period : Nat) (n : Nat) (h1 : rows.length = n)
    (h2 : flags.length = n) (h3 : rlgd.length = n) :
    (histAssign rows flags rlgd period).length = n := by
  simp [histAssign, List.length_zip, h1, h2, h3]

theorem histAssign_period (rows : List Row) (flags : List Nat)
    (rlgd : List ℚ) (period : Nat) :
    ∀ r ∈ histAssign rows flags rlgd period,
      getQ r "period" = (period : ℚ) := by
  intro r hr
  simp only [histAssign, List.mem_map] at hr
  obtain ⟨p, hp, rfl⟩ := hr
  rw [getQ_setA_self]

theorem histAssign_loss (rows : List Row) (flags : List Nat)
    (rlgd : List ℚ) (period : Nat) (hle : ∀ f ∈ flags, f ≤ 1) :
    ∀ r ∈ histAssign rows flags rlgd period,
      getQ r "loss"
        = (if getV r "default_flag" = Val.b true then (1 : ℚ) else 0)
          * getQ r "ead" * getQ r "realized_lgd" := by
  intro r hr
  simp only [histAssign, List.mem_map] at hr
  obtain ⟨p, hp, rfl⟩ := hr
  obtain ⟨r0, fl⟩ := p
  obtain ⟨f, l⟩ := fl
  have hf : f ∈ flags := ((List.of_mem_zip (List.of_mem_zip hp).2).1)
  rw [getQ_setA_ne _ _ _ _ (by decide), getQ_setA_self,
    getV_setA_ne _ _ _ _ (by decide), getV_setA_ne _ _ _ _ (by decide),
    getV_setA_ne _ _ _ _ (by decide), getV_setA_self,
    getQ_setA_ne _ _ _ _ (by decide), getQ_setA_ne _ _ _ _ (by decide),
    getQ_setA_ne _ _ _ _ (by decide), getQ_setA_ne _ _ _ _ (by decide),
    getQ_setA_ne _ _ _ _ (by decide), getQ_setA_ne _ _ _ _ (by decide),
    getQ_setA_self]
  rcases Nat.le_one_iff_eq_zero_or_eq_one.mp (hle f hf) with h0 | h1
  · subst h0; simp
  · subst h1; simp

theorem histAux_spec {σ : Type} (impl : RNGImpl σ) (cfg : ModelConfig)
    (start plen : Int) (n : Nat) :
    ∀ (fuel i : Nat) (s : σ),
      ((histAux impl cfg start plen n fuel i s).1.length = fuel * n)
      ∧ (∀ io j, io < fuel → j < n →
          getQ ((histAux impl cfg start plen n fuel i s).1.getD
            (io * n + j) []) "period" = ((i + io : Nat) : ℚ) + 1)
      ∧ (∀ r ∈ (histAux impl cfg start plen n fuel i s).1,
          getQ r "loss"
            = (if getV r "default_flag" = Val.b true then (1 : ℚ) else 0)
              * getQ r "ead" * getQ r "realized_lgd") := by
  intro fuel
  induction fuel with
  | zero =>
    intro i s
    refine ⟨by simp [histAux], fun io j hio hj => absurd hio (Nat.not_lt_zero io),
      fun r hr => absurd hr (List.not_mem_nil r)⟩
  | succ fuel ih =>
    intro i s
    set snap := generate_baseline_core impl cfg s n (start + (i : Int) * plen)
      with hsnap
    set dFlg := impl.binomial snap.2 1
      (snap.1.rows.map (fun r => getQ r "pd_estimate")) with hdFlg
    set dRlg := impl.uniform dFlg.2 cfg.lgd_range.1 cfg.lgd_range.2 n
      with hdRlg
    have hstep : histAux impl cfg start plen n (fuel + 1) i s
        = (histAssign snap.1.rows dFlg.1 dRlg.1 (i + 1)
            ++ (histAux impl cfg start plen n fuel (i + 1) dRlg.2).1,
          (histAux impl cfg start plen n fuel (i + 1) dRlg.2).2) := rfl
    rw [hstep]
    have hblen : (histAssign snap.1.rows dFlg.1 dRlg.1 (i + 1)).length = n := by
      apply histAssign_length
      · exact generate_baseline_core_length impl cfg s n _
      · rw [hdFlg, impl.binomial_len, List.length_map]
        exact generate_baseline_core_length impl cfg s n _
      · rw [hdRlg]
        exact impl.uniform_len _ _ _ _
    obtain ⟨ihlen, ihper, ihloss⟩ := ih (i + 1) dRlg.2
    refine ⟨?_, ?_, ?_⟩
    · rw [List.length_append, hblen, ihlen, Nat.succ_mul]
      omega
    · intro io j hio hj
      cases io with
      | zero =>
        rw [Nat.zero_mul, Nat.zero_add,
          getD_append_left _ _ _ _ (by rw [hblen]; exact hj)]
        have hmem : (histAssign snap.1.rows dFlg.1 dRlg.1 (i + 1)).getD j []
            ∈ histAssign snap.1.rows dFlg.1 dRlg.1 (i + 1) := by
          rw [List.getD_eq_getElem _ _ (by rw [hblen]; exact hj)]
          exact List.getElem_mem _
        rw [histAssign_period _ _ _ _ _ hmem]
        push_cast
        ring
      | succ io2 =>
        have harith : (io2 + 1) * n + j
            = (histAssign snap.1.rows dFlg.1 dRlg.1 (i + 1)).length
              + (io2 * n + j) := by
          rw [hblen]
          ring
        rw [harith, getD_append_right, ihper io2 j (by omega) hj]
        push_cast
        ring
    · intro r hr
      rcases List.mem_append.mp hr with hb | hrest
      · exact histAssign_loss _ _ _ _
          (fun f hf => by
            rw [hdFlg] at hf
            exact impl.binomial_le _ 1 _ f hf) r hb
      · exact ihloss r hrest


/-- An empty historical panel that still carries every column
`calibrate_pd` requires. -/
def tEmptyCal : Table :=
  { cols := ["segment", "pd_estimate", "default_flag"], rows := [] }

/-! ### The claims -/

/-- Claim C2: two model instances constructed with the same seed and the
same configuration, invoked with the same sequence of operations with the
same arguments, return identical outputs for every operation.  In the
embedding every source of data a call consults — including the generator —
lives in the explicit instance state `postInit impl cfg`, so a run is a
pure function of seed, configuration and call sequence; no external
entropy exists to consult. -/
theorem c2_determinism {σ : Type} (impl : RNGImpl σ) (cfg : ModelConfig)
    (ops : List Op) (s1 s2 : ModelState σ)
    (h1 : s1 = postInit impl cfg) (h2 : s2 = postInit impl cfg) :
    (run impl cfg s1 ops).1 = (run impl cfg s2 ops).1 := by
  rw [h1, h2]

/-- Witness for C2: a concrete instance, run twice over a concrete call
sequence. -/
theorem c2_determinism_witness :
    (run cntImpl defaultConfig (postInit cntImpl defaultConfig)
        [Op.score tHighPd, Op.calibrate tHighLgd]).1
      = (run cntImpl defaultConfig (postInit cntImpl defaultConfig)
        [Op.score tHighPd, Op.calibrate tHighLgd]).1 :=
  c2_determinism cntImpl defaultConfig [Op.score tHighPd, Op.calibrate tHighLgd]
    _ _ rfl rfl

/-- Claim C3: `calibrate_pd` and `score_portfolio` raise the
missing-columns error if and only if some required column (segment,
pd_estimate, default_flag for calibrate; account_id, segment, ead, lgd,
pd_estimate for score) is absent from the input table's columns; the
error carries the ascending sorted list of exactly the missing names, and
with all required columns present no error is raised. -/
theorem c3_missing_columns {σ : Type} (cfg : ModelConfig)
    (st : ModelState σ) (t : Table) :
    (((∀ c ∈ calibrateRequired, c ∈ t.cols)
        → ∃ out, calibrate_pd st t = Except.ok out)
      ∧ (¬ (∀ c ∈ calibrateRequired, c ∈ t.cols)
        → calibrate_pd st t
            = Except.error (missingCols t calibrateRequired)))
    ∧ (((∀ c ∈ scoreRequired, c ∈ t.cols)
        → ∃ out, score_portfolio cfg st t = Except.ok out)
      ∧ (¬ (∀ c ∈ scoreRequired, c ∈ t.cols)
        → score_portfolio cfg st t
            = Except.error (missingCols t scoreRequired)))
    ∧ List.Sorted (fun a b : String => a ≤ b) (missingCols t calibrateRequired)
    ∧ List.Sorted (fun a b : String => a ≤ b) (missingCols t scoreRequired)
    ∧ (∀ c, c ∈ missingCols t calibrateRequired
        ↔ c ∈ calibrateRequired ∧ c ∉ t.cols)
    ∧ (∀ c, c ∈ missingCols t scoreRequired
        ↔ c ∈ scoreRequired ∧ c ∉ t.cols) := by
  refine ⟨⟨?_, ?_⟩, ⟨?_, ?_⟩, missingCols_sorted t _, missingCols_sorted t _,
    fun c => mem_missingCols t _ c, fun c => mem_missingCols t _ c⟩
  · intro h
    have hm : missingCols t calibrateRequired = [] :=
      (missingCols_eq_nil_iff t _).mpr h
    exact ⟨_, by simp [calibrate_pd, hm]; rfl⟩
  · intro h
    have hm : ¬ missingCols t calibrateRequired = [] :=
      fun he => h ((missingCols_eq_nil_iff t _).mp he)
    simp [calibrate_pd, hm]
  · intro h
    have hm : missingCols t scoreRequired = [] :=
      (missingCols_eq_nil_iff t _).mpr h
    exact ⟨_, by simp [score_portfolio, hm]; rfl⟩
  · intro h
    have hm : ¬ missingCols t scoreRequired = [] :=
      fun he => h ((missingCols_eq_nil_iff t _).mp he)
    simp [score_portfolio, hm]

/-- Witness for C3: on a table lacking `default_flag` and `lgd`, calibrate
raises with exactly the missing name, while score raises with both missing
names in ascending order; on a complete table, score succeeds. -/
theorem c3_missing_columns_witness :
    calibrate_pd (σ := Nat) st0 tMissing = Except.error ["default_flag"]
    ∧ score_portfolio defaultConfig st0 tMissing = Except.error ["lgd"]
    ∧ ∃ out, score_portfolio defaultConfig st0 tHighPd = Except.ok out := by
  refine ⟨?_, ?_, (c3_missing_columns defaultConfig st0 tHighPd).2.1.1 (by decide)⟩
  · have h := (c3_missing_columns defaultConfig st0 tMissing).1.2 (by decide)
    rw [h]
    rfl
  · have h := (c3_missing_columns defaultConfig st0 tMissing).2.1.2 (by decide)
    rw [h]
    rfl

/-- Claim C4: on any table with the required columns, `score_portfolio`
succeeds; each output row is the input row with `pd_calibrated =
clip(pd_estimate * scaler, pd_floor, pd_cap)` appended, where `scaler` is
the calibration-state entry for the row's segment or 1.0 when that segment
has no entry (it never fails on unseen segments), and `expected_loss =
ead * lgd * pd_calibrated`. -/
theorem c4_score {σ : Type} (cfg : ModelConfig) (st : ModelState σ)
    (portfolio : Table)
    (hreq : ∀ c ∈ scoreRequired, c ∈ portfolio.cols) :
    ∃ out, score_portfolio cfg st portfolio = Except.ok out
      ∧ out.rows = portfolio.rows.map (scoreRow cfg st.pd_scalers)
      ∧ ∀ r : Row,
          getQ (scoreRow cfg st.pd_scalers r) "pd_calibrated"
            = clip (getQ r "pd_estimate"
                  * ((st.pd_scalers.lookup (getS r "segment")).getD 1))
                cfg.pd_floor cfg.pd_cap
          ∧ getQ (scoreRow cfg st.pd_scalers r) "expected_loss"
            = getQ r "ead" * getQ r "lgd"
              * getQ (scoreRow cfg st.pd_scalers r) "pd_calibrated" := by
  have hm : missingCols portfolio scoreRequired = [] :=
    (missingCols_eq_nil_iff _ _).mpr hreq
  refine ⟨{ cols := addCol (addCol portfolio.cols "pd_calibrated")
              "expected_loss"
            rows := portfolio.rows.map (scoreRow cfg st.pd_scalers) },
    by simp [score_portfolio, hm], rfl, fun r => ?_⟩
  constructor
  · exact scoreRow_pd_calibrated cfg st.pd_scalers r
  · rw [scoreRow_expected_loss, scoreRow_pd_calibrated]

/-- Witness for C4: scoring a complete one-row table whose segment
`"Prime"` is in the default calibration state. -/
theorem c4_score_witness :
    ∃ out, score_portfolio defaultConfig st0 tHighPd = Except.ok out
      ∧ out.rows = tHighPd.rows.map (scoreRow defaultConfig st0.pd_scalers) := by
  obtain ⟨out, h1, h2, h3⟩ := c4_score defaultConfig st0 tHighPd (by decide)
  exact ⟨out, h1, h2⟩

/-- Claim C5: on any historical panel with the required columns,
`calibrate_pd` succeeds and returns one summary row per observed segment
(in the sorted group-key order) carrying, for that segment's rows,
`observed_rate = mean(default_flag)`, `expected_rate = mean(pd_estimate)`
and the scaler `clip(observed_rate / expected_rate, 0.25, 4.0)` — or 1.0
when the expected rate is exactly 0 — and stores that scaler in the
calibration state for every observed segment. -/
theorem c5_calibrate {σ : Type} (st : ModelState σ) (history : Table)
    (hreq : ∀ c ∈ calibrateRequired, c ∈ history.cols) :
    ∃ out st2, calibrate_pd st history = Except.ok (out, st2)
      ∧ out.rows = (groupKeys history.rows).map (fun seg =>
          let frame := history.rows.filter (fun r => getS r "segment" = seg)
          let observed := mean (frame.map (fun r => getQ r "default_flag"))
          let expected := mean (frame.map (fun r => getQ r "pd_estimate"))
          let scaler := if expected = 0 then 1
            else clip (observed / expected) (1/4) 4
          [("segment", Val.s seg), ("expected_pd", Val.q expected),
           ("observed_default_rate", Val.q observed),
           ("pd_scaler", Val.q scaler)])
      ∧ (∀ seg, seg ∈ groupKeys history.rows
          ↔ ∃ r ∈ history.rows, getS r "segment" = seg)
      ∧ ∀ seg ∈ groupKeys history.rows,
          st2.pd_scalers.lookup seg = some (
            let frame := history.rows.filter (fun r => getS r "segment" = seg)
            let observed := mean (frame.map (fun r => getQ r "default_flag"))
            let expected := mean (frame.map (fun r => getQ r "pd_estimate"))
            if expected = 0 then 1
            else clip (observed / expected) (1/4) 4) := by
  have hm : missingCols history calibrateRequired = [] :=
    (missingCols_eq_nil_iff _ _).mpr hreq
  refine ⟨Table.mk ["segment", "expected_pd", "observed_default_rate",
        "pd_scaler"]
      ((groupKeys history.rows).map (fun seg =>
        [("segment", Val.s seg),
         ("expected_pd", Val.q (segScaler history.rows seg).expected_rate),
         ("observed_default_rate",
           Val.q (segScaler history.rows seg).observed_rate),
         ("pd_scaler", Val.q (segScaler history.rows seg).scaler)])),
    ModelState.mk st.rng
      ((groupKeys history.rows).foldl
        (fun m seg => setA m seg (segScaler history.rows seg).scaler)
        st.pd_scalers),
    by simp [calibrate_pd, hm], rfl,
    fun seg => mem_groupKeys history.rows seg, fun seg hseg => ?_⟩
  exact lookup_foldl_setA_mem
    (fun s2 => (segScaler history.rows s2).scaler)
    (groupKeys history.rows) st.pd_scalers seg
    (nodup_groupKeys history.rows) hseg

/-- Witness for C5: calibrating an empty but well-formed panel succeeds
with no summary rows. -/
theorem c5_calibrate_witness :
    ∃ out st2, calibrate_pd (σ := Nat) st0 tEmptyCal
      = Except.ok (out, st2) := by
  obtain ⟨out, st2, h1, h2, h3, h4⟩ := c5_calibrate st0 tEmptyCal (by decide)
  exact ⟨out, st2, h1⟩

/-- Claim C6: on any table the scorer accepts, `run_stress_scenario` first
scores the input and then, with `shock = macro_shock if provided else 0`,
appends `pd_stressed = clip(pd_calibrated*pd_multiplier +
shock*pd_calibrated, pd_floor, pd_cap)`, `lgd_stressed = clip(lgd +
lgd_shift, 0, 1)` and `expected_loss_stressed = ead * lgd_stressed *
pd_stressed`, returning the scored columns plus the three new columns. -/
theorem c6_stress {σ : Type} (cfg : ModelConfig) (st : ModelState σ)
    (portfolio : Table) (pd_multiplier lgd_shift : ℚ)
    (macro_shock : Option ℚ)
    (hreq : ∀ c ∈ scoreRequired, c ∈ portfolio.cols) :
    ∃ scored out,
      score_portfolio cfg st portfolio = Except.ok scored
      ∧ run_stress_scenario cfg st portfolio pd_multiplier lgd_shift
          macro_shock = Except.ok out
      ∧ out.cols = addCol (addCol (addCol scored.cols "pd_stressed")
          "lgd_stressed") "expected_loss_stressed"
      ∧ out.rows = scored.rows.map
          (stressRow cfg pd_multiplier lgd_shift (macro_shock.getD 0))
      ∧ ∀ r : Row,
          getQ (stressRow cfg pd_multiplier lgd_shift (macro_shock.getD 0) r)
              "pd_stressed"
            = clip (getQ r "pd_calibrated" * pd_multiplier
                  + macro_shock.getD 0 * getQ r "pd_calibrated")
                cfg.pd_floor cfg.pd_cap
          ∧ getQ (stressRow cfg pd_multiplier lgd_shift (macro_shock.getD 0) r)
              "lgd_stressed" = clip (getQ r "lgd" + lgd_shift) 0 1
          ∧ getQ (stressRow cfg pd_multiplier lgd_shift (macro_shock.getD 0) r)
              "expected_loss_stressed"
            = getQ r "ead"
              * getQ (stressRow cfg pd_multiplier lgd_shift
                  (macro_shock.getD 0) r) "lgd_stressed"
              * getQ (stressRow cfg pd_multiplier lgd_shift
                  (macro_shock.getD 0) r) "pd_stressed" := by
  have hm : missingCols portfolio scoreRequired = [] :=
    (missingCols_eq_nil_iff _ _).mpr hreq
  have hsc : score_portfolio cfg st portfolio
      = Except.ok (Table.mk
          (addCol (addCol portfolio.cols "pd_calibrated") "expected_loss")
          (portfolio.rows.map (scoreRow cfg st.pd_scalers))) := by
    simp [score_portfolio, hm]
  refine ⟨Table.mk
      (addCol (addCol portfolio.cols "pd_calibrated") "expected_loss")
      (portfolio.rows.map (scoreRow cfg st.pd_scalers)),
    Table.mk
      (addCol (addCol (addCol
        (addCol (addCol portfolio.cols "pd_calibrated") "expected_loss")
        "pd_stressed") "lgd_stressed") "expected_loss_stressed")
      ((portfolio.rows.map (scoreRow cfg st.pd_scalers)).map
        (stressRow cfg pd_multiplier lgd_shift (macro_shock.getD 0))),
    hsc, ?_, rfl, rfl, fun r => ?_⟩
  · unfold run_stress_scenario
    rw [hsc]
  · refine ⟨stressRow_pd_stressed _ _ _ _ _,
      stressRow_lgd_stressed _ _ _ _ _, ?_⟩
    rw [stressRow_expected_loss_stressed, stressRow_lgd_stressed,
      stressRow_pd_stressed]

/-- Witness for C6: stressing a complete one-row table with the source's
default multiplier/shift and no macro shock. -/
theorem c6_stress_witness :
    ∃ scored out,
      score_portfolio defaultConfig st0 tHighPd = Except.ok scored
      ∧ run_stress_scenario defaultConfig st0 tHighPd (27/20) (1/20) none
          = Except.ok out := by
  obtain ⟨scored, out, h1, h2, h3⟩ :=
    c6_stress defaultConfig st0 tHighPd (27/20) (1/20) none (by decide)
  exact ⟨scored, out, h1, h2⟩

/-- Claim C8: after a successful `calibrate_pd` run, the calibration-state
entry of every segment that does not appear in the panel's segment column
is exactly what it was before the call; only observed segments are
overwritten. -/
theorem c8_frame {σ : Type} (st : ModelState σ) (history : Table)
    (seg : String)
    (hseg : ∀ r ∈ history.rows, getS r "segment" ≠ seg) :
    ∀ out st2, calibrate_pd st history = Except.ok (out, st2) →
      st2.pd_scalers.lookup seg = st.pd_scalers.lookup seg := by
  intro out st2 hok
  have hnm : seg ∉ groupKeys history.rows := by
    rw [mem_groupKeys]
    rintro ⟨r, hr, he⟩
    exact hseg r hr he
  by_cases hm : missingCols history calibrateRequired = []
  · simp [calibrate_pd, hm] at hok
    obtain ⟨h1, h2⟩ := hok
    rw [← h2]
    exact lookup_foldl_setA_not_mem
      (fun s2 => (segScaler history.rows s2).scaler)
      (groupKeys history.rows) st.pd_scalers seg hnm
  · simp [calibrate_pd, hm] at hok

/-- Witness for C8: calibrating an empty panel leaves the `"Subprime"`
scaler entry untouched. -/
theorem c8_frame_witness :
    (ModelState.pd_scalers (σ := Nat) st0).lookup "Subprime"
      = st0.pd_scalers.lookup "Subprime" :=
  c8_frame st0 tEmptyCal "Subprime" (by decide)
    { cols := ["segment", "expected_pd", "observed_default_rate",
        "pd_scaler"]
      rows := [] } st0 (by rfl)

/-- Claim C9: for any `periods = p` and `accounts_per_period = n`,
`generate_historical_data` returns exactly `p * n` rows, concatenated in
period order: for each `i < p` the rows at positions `i*n .. (i+1)*n - 1`
carry `period = i + 1`, and every row's `loss` equals
`default_flag * ead * realized_lgd` (with the flag read as 0/1). -/
theorem c9_historical {σ : Type} (impl : RNGImpl σ) (cfg : ModelConfig)
    (st : ModelState σ) (p n : Nat) (start plen : Int) :
    (generate_historical_data impl cfg st p n start plen).1.rows.length
      = p * n
    ∧ (∀ i j, i < p → j < n →
        getQ ((generate_historical_data impl cfg st p n start
            plen).1.rows.getD (i * n + j) []) "period" = (i : ℚ) + 1)
    ∧ (∀ r ∈ (generate_historical_data impl cfg st p n start plen).1.rows,
        getQ r "loss"
          = (if getV r "default_flag" = Val.b true then (1 : ℚ) else 0)
            * getQ r "ead" * getQ r "realized_lgd") := by
  obtain ⟨h1, h2, h3⟩ := histAux_spec impl cfg start plen n p 0 st.rng
  refine ⟨h1, ?_, h3⟩
  intro i j hi hj
  have h := h2 i j hi hj
  simpa using h

/-- Witness for C9 at a concrete generator: 2 periods of 1 account each
give 2 rows. -/
theorem c9_historical_witness :
    (generate_historical_data cntImpl defaultConfig st0 2 1 0 30).1.rows.length
      = 2 * 1 :=
  (c9_historical cntImpl defaultConfig st0 2 1 0 30).1

/-- Claim C10: `score_portfolio` and `run_stress_scenario` draw nothing
from the generator and never write the scaler map — the instance state
after either call is exactly the state before it — so any block of
scoring/stress calls inserted into a call sequence leaves the state, and
hence every later call's output, unchanged. -/
theorem c10_frame {σ : Type} (impl : RNGImpl σ) (cfg : ModelConfig)
    (st : ModelState σ) (pf : Table) (m sh : ℚ) (shk : Option ℚ)
    (os ys : List Op) (hos : ∀ o ∈ os, passiveOp o = true) :
    (runOp impl cfg st (Op.score pf)).2 = st
    ∧ (runOp impl cfg st (Op.stress pf m sh shk)).2 = st
    ∧ (run impl cfg st os).2 = st
    ∧ (run impl cfg st (os ++ ys)).1
        = (run impl cfg st os).1 ++ (run impl cfg st ys).1
    ∧ (run impl cfg st (os ++ ys)).2 = (run impl cfg st ys).2 := by
  have hs := run_passive_state impl cfg st os hos
  refine ⟨rfl, rfl, hs, ?_, ?_⟩
  · rw [run_append, hs]
  · rw [run_append, hs]

/-- Witness for C10: a score call between two runs leaves the instance
state intact. -/
theorem c10_frame_witness :
    (runOp cntImpl defaultConfig st0 (Op.score tHighPd)).2 = st0 :=
  (c10_frame cntImpl defaultConfig st0 tHighPd 1 0 none
    [Op.score tHighPd] [] (by decide)).1

/-- Claim C1 (amended): given pd_floor ≤ pd_cap, every field the three
operations compute is clamped into range — `pd_estimate` of generated
rows, `pd_calibrated` of scored rows, and `pd_stressed`, the carried-over
`pd_calibrated`, and `lgd_stressed` (into [0,1]) of stressed rows — while
`pd_estimate` of scored (hence stressed) rows is the input's value passed
through unchanged, so it lies within [pd_floor, pd_cap] only when the
input's does, as generated rows' values do. -/
theorem c1_bounds {σ : Type} (impl : RNGImpl σ) (cfg : ModelConfig)
    (st : ModelState σ) (n : Nat) (d : Int) (m sh : ℚ) (shk : Option ℚ)
    (hfc : cfg.pd_floor ≤ cfg.pd_cap) :
    (∀ r ∈ (generate_baseline_data impl cfg st n d).1.rows,
        cfg.pd_floor ≤ getQ r "pd_estimate"
          ∧ getQ r "pd_estimate" ≤ cfg.pd_cap)
    ∧ (∀ t out, score_portfolio cfg st t = Except.ok out →
        ∀ r ∈ out.rows,
          cfg.pd_floor ≤ getQ r "pd_calibrated"
            ∧ getQ r "pd_calibrated" ≤ cfg.pd_cap)
    ∧ (∀ t out,
        run_stress_scenario cfg st t m sh shk = Except.ok out →
        ∀ r ∈ out.rows,
          (cfg.pd_floor ≤ getQ r "pd_stressed"
            ∧ getQ r "pd_stressed" ≤ cfg.pd_cap)
          ∧ ((0 : ℚ) ≤ getQ r "lgd_stressed" ∧ getQ r "lgd_stressed" ≤ 1)
          ∧ (cfg.pd_floor ≤ getQ r "pd_calibrated"
            ∧ getQ r "pd_calibrated" ≤ cfg.pd_cap))
    ∧ (∀ r : Row, getQ (scoreRow cfg st.pd_scalers r) "pd_estimate"
        = getQ r "pd_estimate") := by
  have hscore : ∀ t out, score_portfolio cfg st t = Except.ok out →
      ∀ r ∈ out.rows,
        cfg.pd_floor ≤ getQ r "pd_calibrated"
          ∧ getQ r "pd_calibrated" ≤ cfg.pd_cap := by
    intro t out hok
    by_cases hm : missingCols t scoreRequired = []
    · simp [score_portfolio, hm] at hok
      subst hok
      intro r hr
      obtain ⟨r0, hr0, rfl⟩ := List.mem_map.mp (by simpa using hr)
      rw [scoreRow_pd_calibrated]
      exact ⟨lo_le_clip _ _ _ hfc, clip_le_hi _ _ _⟩
    · simp [score_portfolio, hm] at hok
  refine ⟨generate_baseline_core_pd impl cfg st.rng n d hfc, hscore,
    ?_, ?_⟩
  · intro t out hok
    cases hsc : score_portfolio cfg st t with
    | error e =>
      unfold run_stress_scenario at hok
      rw [hsc] at hok
      simp at hok
    | ok scored =>
      unfold run_stress_scenario at hok
      rw [hsc] at hok
      simp at hok
      subst hok
      intro r hr
      obtain ⟨r0, hr0, rfl⟩ := List.mem_map.mp (by simpa using hr)
      refine ⟨?_, ?_, ?_⟩
      · rw [stressRow_pd_stressed]
        exact ⟨lo_le_clip _ _ _ hfc, clip_le_hi _ _ _⟩
      · rw [stressRow_lgd_stressed]
        exact ⟨lo_le_clip _ _ _ (by norm_num), clip_le_hi _ _ _⟩
      · rw [stressRow_getQ_other _ _ _ _ _ _ (by decide) (by decide)
          (by decide)]
        exact hscore t scored hsc r0 hr0
  · intro r
    exact scoreRow_getQ_other cfg st.pd_scalers r "pd_estimate"
      (by decide) (by decide)

/-- Witness for C1 (amended): the passthrough clause applied at a concrete
row. -/
theorem c1_bounds_witness :
    getQ (scoreRow defaultConfig st0.pd_scalers rowHighPd) "pd_estimate"
      = getQ rowHighPd "pd_estimate" :=
  (c1_bounds cntImpl defaultConfig st0 1 0 1 0 none
    (by norm_num [defaultConfig])).2.2.2 rowHighPd

/-- Counterexample to C1 as stated: with the default configuration
(whose pd_floor ≤ pd_cap), scoring a table whose `pd_estimate` is 7
succeeds and returns a row whose `pd_estimate` field is still 7, far
above pd_cap = 0.40. -/
theorem c1_counterexample :
    defaultConfig.pd_floor ≤ defaultConfig.pd_cap
    ∧ firstQ (score_portfolio defaultConfig st0 tHighPd) "pd_estimate"
        = some 7
    ∧ ¬ (7 : ℚ) ≤ defaultConfig.pd_cap := by
  refine ⟨by norm_num [defaultConfig], ?_, by norm_num [defaultConfig]⟩
  decide

/-- Claim C7 (amended): with pd_multiplier = 1, lgd_shift = 0 and
macro_shock = 0, stressing equals scoring row by row — provided
pd_floor ≤ pd_cap and every input row's `lgd` already lies in [0,1]
(as generated portfolios' do); a row with `lgd` outside [0,1] breaks the
identity because the stress path clamps `lgd` and the score path does
not. -/
theorem c7_stress_identity {σ : Type} (cfg : ModelConfig)
    (st : ModelState σ) (portfolio : Table)
    (hreq : ∀ c ∈ scoreRequired, c ∈ portfolio.cols)
    (hfc : cfg.pd_floor ≤ cfg.pd_cap)
    (hlgd : ∀ r ∈ portfolio.rows,
      (0 : ℚ) ≤ getQ r "lgd" ∧ getQ r "lgd" ≤ 1) :
    ∃ scored stressed,
      score_portfolio cfg st portfolio = Except.ok scored
      ∧ run_stress_scenario cfg st portfolio 1 0 (some 0)
          = Except.ok stressed
      ∧ stressed.rows = scored.rows.map (stressRow cfg 1 0 0)
      ∧ ∀ r0 ∈ portfolio.rows,
          getQ (stressRow cfg 1 0 0 (scoreRow cfg st.pd_scalers r0))
              "expected_loss_stressed"
            = getQ (scoreRow cfg st.pd_scalers r0) "expected_loss" := by
  have hm : missingCols portfolio scoreRequired = [] :=
    (missingCols_eq_nil_iff _ _).mpr hreq
  have hsc : score_portfolio cfg st portfolio
      = Except.ok (Table.mk
          (addCol (addCol portfolio.cols "pd_calibrated") "expected_loss")
          (portfolio.rows.map (scoreRow cfg st.pd_scalers))) := by
    simp [score_portfolio, hm]
  refine ⟨Table.mk
      (addCol (addCol portfolio.cols "pd_calibrated") "expected_loss")
      (portfolio.rows.map (scoreRow cfg st.pd_scalers)),
    Table.mk
      (addCol (addCol (addCol
        (addCol (addCol portfolio.cols "pd_calibrated") "expected_loss")
        "pd_stressed") "lgd_stressed") "expected_loss_stressed")
      ((portfolio.rows.map (scoreRow cfg st.pd_scalers)).map
        (stressRow cfg 1 0 0)),
    hsc, ?_, rfl, fun r0 hr0 => ?_⟩
  · unfold run_stress_scenario
    rw [hsc]
    rfl
  · rw [stressRow_expected_loss_stressed, scoreRow_expected_loss,
      scoreRow_getQ_other cfg st.pd_scalers r0 "ead" (by decide) (by decide),
      scoreRow_getQ_other cfg st.pd_scalers r0 "lgd" (by decide) (by decide),
      scoreRow_pd_calibrated]
    have hl := hlgd r0 hr0
    rw [add_zero, clip_of_mem _ _ _ hl.1 hl.2, mul_one, zero_mul, add_zero,
      clip_of_mem _ _ _ (lo_le_clip _ _ _ hfc) (clip_le_hi _ _ _)]

/-- Witness for C7 (amended): a portfolio whose only row has lgd = 1/2. -/
theorem c7_stress_identity_witness :
    ∃ scored stressed,
      score_portfolio defaultConfig st0 tHighPd = Except.ok scored
      ∧ run_stress_scenario defaultConfig st0 tHighPd 1 0 (some 0)
          = Except.ok stressed := by
  obtain ⟨sc, str, h1, h2, h3, h4⟩ :=
    c7_stress_identity defaultConfig st0 tHighPd (by decide)
      (by norm_num [defaultConfig])
      (by
        intro r hr
        have hr2 : r = rowHighPd := by simpa [tHighPd] using hr
        subst hr2
        have hlv : getQ rowHighPd "lgd" = 1/2 := rfl
        rw [hlv]
        norm_num)
  exact ⟨sc, str, h1, h2⟩

/-- Counterexample to C7 as stated: under the default configuration and
fresh calibration state, a one-row portfolio with lgd = 2 (accepted by the
scorer, which validates only column presence) gives expected_loss = 1/5
but expected_loss_stressed = 1/10 under the identity stress
(pd_multiplier = 1, lgd_shift = 0, macro_shock = 0). -/
theorem c7_counterexample :
    firstQ (score_portfolio defaultConfig st0 tHighLgd) "expected_loss"
        = some (1/5)
    ∧ firstQ (run_stress_scenario defaultConfig st0 tHighLgd 1 0 (some 0))
        "expected_loss_stressed" = some (1/10)
    ∧ (1/5 : ℚ) ≠ 1/10 := by
  have hm : missingCols tHighLgd scoreRequired = [] := by decide
  have hsc : score_portfolio defaultConfig st0 tHighLgd
      = Except.ok (Table.mk
          (addCol (addCol tHighLgd.cols "pd_calibrated") "expected_loss")
          [scoreRow defaultConfig st0.pd_scalers rowHighLgd]) := by
    simp [score_portfolio, hm]
    rfl
  have he2 : getQ (scoreRow defaultConfig st0.pd_scalers rowHighLgd) "ead"
      = 1 := by
    rw [scoreRow_getQ_other defaultConfig st0.pd_scalers rowHighLgd "ead"
      (by decide) (by decide)]
    rfl
  have hl2 : getQ (scoreRow defaultConfig st0.pd_scalers rowHighLgd) "lgd"
      = 2 := by
    rw [scoreRow_getQ_other defaultConfig st0.pd_scalers rowHighLgd "lgd"
      (by decide) (by decide)]
    rfl
  have hpc : getQ (scoreRow defaultConfig st0.pd_scalers rowHighLgd)
      "pd_calibrated" = clip (1/10 * 1) (1/2000) (2/5) := by
    rw [scoreRow_pd_calibrated]
    rfl
  have hel : getQ (scoreRow defaultConfig st0.pd_scalers rowHighLgd)
      "expected_loss" = 1/5 := by
    rw [scoreRow_expected_loss]
    have hp : getQ rowHighLgd "pd_estimate" = 1/10 := rfl
    have he : getQ rowHighLgd "ead" = 1 := rfl
    have hl : getQ rowHighLgd "lgd" = 2 := rfl
    have hs : ((st0.pd_scalers.lookup (getS rowHighLgd "segment")).getD 1)
        = 1 := rfl
    rw [hp, he, hl, hs]
    norm_num [clip, min_def, max_def, defaultConfig]
  refine ⟨?_, ?_, by norm_num⟩
  · rw [hsc]
    show some (getQ (scoreRow defaultConfig st0.pd_scalers rowHighLgd)
      "expected_loss") = some (1/5)
    rw [hel]
  · have hst : run_stress_scenario defaultConfig st0 tHighLgd 1 0 (some 0)
        = Except.ok (Table.mk
            (addCol (addCol (addCol (addCol (addCol tHighLgd.cols
              "pd_calibrated") "expected_loss") "pd_stressed")
              "lgd_stressed") "expected_loss_stressed")
            [stressRow defaultConfig 1 0 0
              (scoreRow defaultConfig st0.pd_scalers rowHighLgd)]) := by
      unfold run_stress_scenario
      rw [hsc]
      rfl
    rw [hst]
    show some (getQ (stressRow defaultConfig 1 0 0
      (scoreRow defaultConfig st0.pd_scalers rowHighLgd))
      "expected_loss_stressed") = some (1/10)
    rw [stressRow_expected_loss_stressed, he2, hl2, hpc]
    norm_num [clip, min_def, max_def, defaultConfig]

end CreditRisk
